import Mathlib

/-
Verification of the time-driven execution and external-synchronization
engine of the tarikhbot repository: the recurrence compiler
(apps/shared/enums.py, RecurrenceType.get_cron_expression), the Google
credential store and refresh manager (apps/users/google.py and
apps/users/models.py), the job scheduler wrapper (config/scheduler.py)
and the calendar synchronization loop (bot/handlers/google.py).

Python values are shallowly embedded: optional values become Option,
datetimes become an abstract integer instant, dict-based provider
responses become structures, and exceptions become Except.  Python
truthiness of optional strings (None and the empty string are falsy)
is modelled explicitly where the source branches on it.
-/

namespace Tarikhbot

/-! ## Recurrence compiler — apps/shared/enums.py -/

/--
The keyword-argument bag accepted by RecurrenceType.get_cron_expression.
Every key the source reads via kwargs.get is an optional field; the
source's defaults (hour 9, minute 0, day_of_week 1, day_of_month 1,
month 1, cron_expression "0 9 * * *") are applied inside the function,
mirroring kwargs.get(key, default).
-/
structure RecurrenceKwargs where
  hour : Option Int
  minute : Option Int
  day_of_week : Option Int
  day_of_month : Option Int
  month : Option Int
  cron_expression : Option String
deriving Repr, DecidableEq

/--
RecurrenceType.get_cron_expression.  RecurrenceType is a str-valued
enum, so the dispatch compares the incoming kind against the string
values "daily", "weekly", "monthly", "yearly", "custom"; any other
value reaches the final else branch, which returns the 09:00-daily
default expression.  Python f-string formatting of the integer
parameters is embedded as string concatenation of their decimal
renderings.
-/
def getCronExpression (recurrence_type : String) (kw : RecurrenceKwargs) : String :=
  if recurrence_type = "daily" then
    let hour := kw.hour.getD 9
    let minute := kw.minute.getD 0
    toString minute ++ " " ++ toString hour ++ " * * *"
  else if recurrence_type = "weekly" then
    let hour := kw.hour.getD 9
    let minute := kw.minute.getD 0
    let day_of_week := kw.day_of_week.getD 1
    toString minute ++ " " ++ toString hour ++ " * * " ++ toString day_of_week
  else if recurrence_type = "monthly" then
    let hour := kw.hour.getD 9
    let minute := kw.minute.getD 0
    let day_of_month := kw.day_of_month.getD 1
    toString minute ++ " " ++ toString hour ++ " " ++ toString day_of_month ++ " * *"
  else if recurrence_type = "yearly" then
    let hour := kw.hour.getD 9
    let minute := kw.minute.getD 0
    let day_of_month := kw.day_of_month.getD 1
    let month := kw.month.getD 1
    toString minute ++ " " ++ toString hour ++ " " ++ toString day_of_month ++ " "
      ++ toString month ++ " *"
  else if recurrence_type = "custom" then
    kw.cron_expression.getD "0 9 * * *"
  else
    "0 9 * * *"

/-- The five recurrence kinds the compiler recognizes. -/
def recognizedRecurrenceKinds : List String :=
  ["daily", "weekly", "monthly", "yearly", "custom"]

/-- An empty keyword bag (all parameters left to their defaults). -/
def emptyKwargs : RecurrenceKwargs :=
  { hour := none, minute := none, day_of_week := none, day_of_month := none,
    month := none, cron_expression := none }

/--
C6: the recurrence compiler is a pure deterministic function — compiling
the same (kind, parameters) twice yields character-identical schedule
expressions — and daily with hour 9 and minute 30 compiles to the
five-field expression "30 9 * * *".
-/
theorem getCronExpression_deterministic_and_daily :
    (∀ (k : String) (kw : RecurrenceKwargs),
      getCronExpression k kw = getCronExpression k kw) ∧
    getCronExpression "daily"
      { emptyKwargs with hour := some 9, minute := some 30 } = "30 9 * * *" := by
  refine ⟨fun k kw => rfl, ?_⟩
  rfl

/--
C7: for every kind outside the five recognized recurrence kinds the
compiler does not fail: it returns the fixed default expression
"0 9 * * *" (09:00 daily), for every parameter bag.
-/
theorem getCronExpression_unrecognized_default
    (k : String) (kw : RecurrenceKwargs)
    (h : k ∉ recognizedRecurrenceKinds) :
    getCronExpression k kw = "0 9 * * *" := by
  simp only [recognizedRecurrenceKinds, List.mem_cons, List.mem_singleton, not_or] at h
  obtain ⟨h1, h2, h3, h4, h5, -⟩ := h
  simp [getCronExpression, h1, h2, h3, h4, h5]

/-- Witness for C7 at the concrete unrecognized kind "hourly". -/
theorem getCronExpression_unrecognized_default_witness :
    getCronExpression "hourly" emptyKwargs = "0 9 * * *" :=
  getCronExpression_unrecognized_default "hourly" emptyKwargs (by decide)

/-! ## Credential store & refresh manager — apps/users/google.py, apps/users/models.py -/

/--
Python truthiness of an Optional[str]: None and the empty string are
falsy, every other string is truthy.  The source branches with bare
`if refresh_token:` / `if email:` / `if not auth.refresh_token:`.
-/
def strTruthy : Option String → Bool
  | none => false
  | some s => !s.isEmpty

/--
The GoogleAuth row (database/models.py): access token, optional refresh
token, absolute expiry instant, optional email and the two sync flags.
Instants are abstract integers.
-/
structure GoogleAuth where
  access_token : String
  refresh_token : Option String
  token_expiry : Int
  email : Option String
  calendar_sync_enabled : Bool
  gmail_sync_enabled : Bool
deriving Repr, DecidableEq

/-- GoogleAuth.is_expired: datetime.now() > token_expiry. -/
def GoogleAuth.is_expired (a : GoogleAuth) (now : Int) : Bool :=
  now > a.token_expiry

/--
A successful JSON response of the OAuth token endpoint, as read by
_get_credentials: access_token and expires_in are required keys,
id_token is read with .get, and the provider may or may not include a
replacement refresh_token (the source never reads that key — kept here
so that the claim about it can be stated).
-/
structure TokenResponse where
  access_token : String
  expires_in : Int
  id_token : Option String
  refresh_token : Option String
deriving Repr, DecidableEq

/--
The aiogoogle UserCreds value _get_credentials builds and returns
(fixed client configuration fields token_uri, client_id, client_secret
and scopes omitted: they are constants of the client object, not data
the claims mention).
-/
structure UserCreds where
  access_token : String
  refresh_token : Option String
  id_token : Option String
  expiry : Int
deriving Repr, DecidableEq

/--
The value of GoogleAPIClient._get_credentials.  The Python function
returns Optional[UserCreds]; its three distinct failure return sites
are kept apart here, matching their log messages: no stored credential
("No Google credentials found"), expired with no refresh token
("No refresh token available"), and a failed refresh attempt ("Failed
to refresh token" / the exception handler).
-/
inductive CredResult
  | notFound
  | unrefreshable
  | refreshFailed
  | ok (creds : UserCreds)
deriving Repr, DecidableEq

/--
What one call to _get_credentials produces: the returned value, the
stored credential afterwards, and how many times the token endpoint was
invoked (each invocation of _refresh_token performs exactly one POST,
with no retry loop).
-/
structure CredOutcome where
  result : CredResult
  stored : Option GoogleAuth
  tokenEndpointCalls : Nat
deriving Repr, DecidableEq

/--
store_google_auth (apps/users/models.py) restricted to the single
user's credential slot: update the existing row — overwriting
refresh_token and email only when the incoming value is truthy — or
create a fresh row with the sync flags at their column defaults
(False).
-/
def store_google_auth (existing : Option GoogleAuth) (access_token : String)
    (refresh_token : Option String) (token_expiry : Int)
    (email : Option String) : GoogleAuth :=
  match existing with
  | some ga =>
      { ga with
        access_token := access_token,
        refresh_token := if strTruthy refresh_token then refresh_token else ga.refresh_token,
        token_expiry := token_expiry,
        email := if strTruthy email then email else ga.email }
  | none =>
      { access_token := access_token, refresh_token := refresh_token,
        token_expiry := token_expiry, email := email,
        calendar_sync_enabled := false, gmail_sync_enabled := false }

/--
GoogleAPIClient._get_credentials.  `stored` is the credential row
GoogleAuthService.get_credentials returns for this user; `now` is the
current instant; `refreshResponse` is what _refresh_token would return
for the single POST it makes — none models both a transport exception
and a non-200 status, which _refresh_token converts to None alike.
On a successful refresh the new row is persisted through
store_google_auth with the OLD refresh token (the source passes
auth.refresh_token with the comment "Keep existing refresh token"),
expiry now + expires_in, and the existing email; the freshly built
UserCreds is returned in the same call.
-/
def getCredentials (stored : Option GoogleAuth) (now : Int)
    (refreshResponse : Option TokenResponse) : CredOutcome :=
  match stored with
  | none => { result := CredResult.notFound, stored := none, tokenEndpointCalls := 0 }
  | some auth =>
    if auth.is_expired now then
      if !strTruthy auth.refresh_token then
        { result := CredResult.unrefreshable, stored := some auth, tokenEndpointCalls := 0 }
      else
        match refreshResponse with
        | some resp =>
            let newStored := store_google_auth (some auth) resp.access_token
              auth.refresh_token (now + resp.expires_in) auth.email
            { result := CredResult.ok
                { access_token := resp.access_token,
                  refresh_token := auth.refresh_token,
                  id_token := resp.id_token,
                  expiry := now + resp.expires_in },
              stored := some newStored,
              tokenEndpointCalls := 1 }
        | none =>
            { result := CredResult.refreshFailed, stored := some auth,
              tokenEndpointCalls := 1 }
    else
      { result := CredResult.ok
          { access_token := auth.access_token,
            refresh_token := auth.refresh_token,
            id_token := none,
            expiry := auth.token_expiry },
        stored := some auth, tokenEndpointCalls := 0 }

/--
C3: on a stored credential whose expiry is in the past and whose
refresh token is present, one _get_credentials call invokes the token
endpoint exactly once — for every possible endpoint outcome — and when
the endpoint call fails the returned value is the refresh-failure value
and the stored credential (its access token in particular) is exactly
what it was before the call.
-/
theorem getCredentials_single_refresh_and_failure_preserves
    (auth : GoogleAuth) (now : Int) (resp : Option TokenResponse)
    (hexp : auth.is_expired now = true)
    (href : strTruthy auth.refresh_token = true) :
    (getCredentials (some auth) now resp).tokenEndpointCalls = 1 ∧
    (resp = none →
      (getCredentials (some auth) now resp).result = CredResult.refreshFailed ∧
      (getCredentials (some auth) now resp).stored = some auth) := by
  cases resp <;> simp [getCredentials, hexp, href]

/-- Witness for C3 at a concrete expired credential and a failing endpoint. -/
theorem getCredentials_single_refresh_and_failure_preserves_witness :
    (getCredentials
      (some { access_token := "A1", refresh_token := some "R1", token_expiry := 50,
              email := some "u@example.com", calendar_sync_enabled := true,
              gmail_sync_enabled := false }) 100 none).tokenEndpointCalls = 1 ∧
    (none = (none : Option TokenResponse) →
      (getCredentials
        (some { access_token := "A1", refresh_token := some "R1", token_expiry := 50,
                email := some "u@example.com", calendar_sync_enabled := true,
                gmail_sync_enabled := false }) 100 none).result = CredResult.refreshFailed ∧
      (getCredentials
        (some { access_token := "A1", refresh_token := some "R1", token_expiry := 50,
                email := some "u@example.com", calendar_sync_enabled := true,
                gmail_sync_enabled := false }) 100 none).stored =
        some { access_token := "A1", refresh_token := some "R1", token_expiry := 50,
               email := some "u@example.com", calendar_sync_enabled := true,
               gmail_sync_enabled := false }) :=
  getCredentials_single_refresh_and_failure_preserves
    { access_token := "A1", refresh_token := some "R1", token_expiry := 50,
      email := some "u@example.com", calendar_sync_enabled := true,
      gmail_sync_enabled := false } 100 none (by decide) (by decide)

/--
C4: on a stored credential whose expiry is in the past and which
carries no (truthy) refresh token, _get_credentials returns the
unrefreshable failure value, performs zero token-endpoint calls, and
leaves the stored credential unchanged.
-/
theorem getCredentials_unrefreshable_no_call
    (auth : GoogleAuth) (now : Int) (resp : Option TokenResponse)
    (hexp : auth.is_expired now = true)
    (href : strTruthy auth.refresh_token = false) :
    (getCredentials (some auth) now resp).result = CredResult.unrefreshable ∧
    (getCredentials (some auth) now resp).tokenEndpointCalls = 0 ∧
    (getCredentials (some auth) now resp).stored = some auth := by
  simp [getCredentials, hexp, href]

/-- Witness for C4 at a concrete expired credential with no refresh token. -/
theorem getCredentials_unrefreshable_no_call_witness :
    (getCredentials
      (some { access_token := "A1", refresh_token := none, token_expiry := 50,
              email := none, calendar_sync_enabled := false,
              gmail_sync_enabled := false }) 100 none).result = CredResult.unrefreshable ∧
    (getCredentials
      (some { access_token := "A1", refresh_token := none, token_expiry := 50,
              email := none, calendar_sync_enabled := false,
              gmail_sync_enabled := false }) 100 none).tokenEndpointCalls = 0 ∧
    (getCredentials
      (some { access_token := "A1", refresh_token := none, token_expiry := 50,
              email := none, calendar_sync_enabled := false,
              gmail_sync_enabled := false }) 100 none).stored =
      some { access_token := "A1", refresh_token := none, token_expiry := 50,
             email := none, calendar_sync_enabled := false,
             gmail_sync_enabled := false } :=
  getCredentials_unrefreshable_no_call
    { access_token := "A1", refresh_token := none, token_expiry := 50,
      email := none, calendar_sync_enabled := false, gmail_sync_enabled := false }
    100 none (by decide) (by decide)

/--
C5 counterexample: the claim says that when the provider's refresh
response carries a new refresh token the stored credential afterwards
holds the new one.  At this concrete input the endpoint succeeds and
issues the replacement refresh token "R2", yet the credential stored by
_get_credentials still holds the prior token "R1": the source passes
auth.refresh_token to store_credentials and never reads the response's
refresh_token key.
-/
theorem getCredentials_discards_new_refresh_token :
    (TokenResponse.refresh_token
      { access_token := "A2", expires_in := 3600, id_token := none,
        refresh_token := some "R2" } = some "R2") ∧
    ((getCredentials
        (some { access_token := "A1", refresh_token := some "R1", token_expiry := 50,
                email := none, calendar_sync_enabled := false,
                gmail_sync_enabled := false }) 100
        (some { access_token := "A2", expires_in := 3600, id_token := none,
                refresh_token := some "R2" })).stored.map
      GoogleAuth.refresh_token = some (some "R1")) ∧
    ¬ ((getCredentials
        (some { access_token := "A1", refresh_token := some "R1", token_expiry := 50,
                email := none, calendar_sync_enabled := false,
                gmail_sync_enabled := false }) 100
        (some { access_token := "A2", expires_in := 3600, id_token := none,
                refresh_token := some "R2" })).stored.map
      GoogleAuth.refresh_token = some (some "R2")) := by
  refine ⟨rfl, ?_, ?_⟩ <;> decide

/--
C5 (amended): after every successful refresh cycle the stored
credential holds the provider's new access token and expiry now +
expires_in, and holds the prior refresh token unconditionally — a
replacement refresh token issued by the provider is discarded — while
email and the sync flags are unchanged; the refreshed credential
(new access token, prior refresh token, response id token, new expiry)
is returned to the caller within the same call.
-/
theorem getCredentials_refresh_success
    (auth : GoogleAuth) (resp : TokenResponse) (now : Int)
    (hexp : auth.is_expired now = true)
    (href : strTruthy auth.refresh_token = true) :
    getCredentials (some auth) now (some resp) =
      { result := CredResult.ok
          { access_token := resp.access_token,
            refresh_token := auth.refresh_token,
            id_token := resp.id_token,
            expiry := now + resp.expires_in },
        stored := some
          { auth with
            access_token := resp.access_token,
            token_expiry := now + resp.expires_in },
        tokenEndpointCalls := 1 } := by
  simp [getCredentials, store_google_auth, hexp, href]

/-- Witness for the amended C5 at a concrete expired credential and response. -/
theorem getCredentials_refresh_success_witness :
    getCredentials
      (some { access_token := "A1", refresh_token := some "R1", token_expiry := 50,
              email := some "u@example.com", calendar_sync_enabled := true,
              gmail_sync_enabled := false }) 100
      (some { access_token := "A2", expires_in := 3600, id_token := some "ID2",
              refresh_token := none }) =
      { result := CredResult.ok
          { access_token := "A2", refresh_token := some "R1",
            id_token := some "ID2", expiry := 3700 },
        stored := some
          { access_token := "A2", refresh_token := some "R1", token_expiry := 3700,
            email := some "u@example.com", calendar_sync_enabled := true,
            gmail_sync_enabled := false },
        tokenEndpointCalls := 1 } :=
  getCredentials_refresh_success
    { access_token := "A1", refresh_token := some "R1", token_expiry := 50,
      email := some "u@example.com", calendar_sync_enabled := true,
      gmail_sync_enabled := false }
    { access_token := "A2", expires_in := 3600, id_token := some "ID2",
      refresh_token := none }
    100 (by decide) (by decide)

/-! ## Job scheduler wrapper — config/scheduler.py -/

/--
The trigger attached to a job: a one-shot date trigger, a crontab
expression (CronTrigger.from_crontab), or the hour/minute cron used by
add_daily_summary.  The crontab expression is kept uninterpreted: no
claim depends on apscheduler's parsing of it.
-/
inductive Trigger
  | date (run_date : String)
  | crontab (expression : String)
  | cronHM (hour : Int) (minute : Int)
deriving Repr, DecidableEq

/--
A registered job: its id, trigger, and the keyword-argument bag the
wrapper methods attach (user_id always, task_id for reminders and
recurring tasks; the free-form extra kwargs carry no claim-relevant
data and are omitted).  The callback reference is outside the
embedding.
-/
structure Job where
  id : String
  trigger : Trigger
  user_id : Int
  task_id : Option Int
deriving Repr, DecidableEq

/--
apscheduler add_job with replace_existing True on the in-memory job
store: any job already registered under the same id is removed and the
new job is inserted.
-/
def addJobReplacing (table : List Job) (j : Job) : List Job :=
  table.filter (fun x => !(x.id == j.id)) ++ [j]

/-- The deterministic job identity scheme: kind, owning user id, subject id. -/
def jobIdentity (kind : String) (user_id subject_id : Int) : String :=
  kind ++ "_" ++ toString user_id ++ "_" ++ toString subject_id

/--
BotScheduler.add_reminder: id "reminder_{user_id}_{task_id}", a
one-shot date trigger, replace_existing.  Returns the new table and
the job id.
-/
def add_reminder (table : List Job) (run_date : String) (user_id task_id : Int) :
    List Job × String :=
  let job_id := "reminder_" ++ toString user_id ++ "_" ++ toString task_id
  (addJobReplacing table
    { id := job_id, trigger := Trigger.date run_date,
      user_id := user_id, task_id := some task_id }, job_id)

/--
BotScheduler.add_recurring_task: id "recurring_{user_id}_{task_id}", a
CronTrigger built from the crontab expression, replace_existing.
-/
def add_recurring_task (table : List Job) (task_id user_id : Int)
    (cron_expression : String) : List Job × String :=
  let job_id := "recurring_" ++ toString user_id ++ "_" ++ toString task_id
  (addJobReplacing table
    { id := job_id, trigger := Trigger.crontab cron_expression,
      user_id := user_id, task_id := some task_id }, job_id)

/--
apscheduler remove_job on the in-memory store: removes the job with the
given id, raising JobLookupError (modelled by Except.error) when no job
carries that id.
-/
def schedulerRemoveJob (table : List Job) (job_id : String) :
    Except String (List Job) :=
  if table.any (fun j => j.id == job_id) then
    Except.ok (table.filter (fun j => !(j.id == job_id)))
  else
    Except.error "JobLookupError"

/--
BotScheduler.remove_job: try scheduler.remove_job, catching every
exception; returns True with the updated table on success, False with
the table untouched on any failure.
-/
def remove_job (table : List Job) (job_id : String) : Bool × List Job :=
  match schedulerRemoveJob table job_id with
  | Except.ok t => (true, t)
  | Except.error _ => (false, table)

/--
C8: job identity is the deterministic function kind_user_subject — the
ids chosen by add_reminder and add_recurring_task are exactly
jobIdentity of ("reminder", user, task) and ("recurring", user, task)
— and registering a job whose id is already registered leaves exactly
one job under that id, the one from the second (later) registration,
carrying the second registration's trigger.
-/
theorem scheduler_identity_and_replace_on_collision
    (table : List Job) (j2 : Job)
    (h : ∃ j1 ∈ table, j1.id = j2.id) :
    (∀ (tb : List Job) (d : String) (u t : Int),
        (add_reminder tb d u t).2 = jobIdentity "reminder" u t) ∧
    (∀ (tb : List Job) (t u : Int) (c : String),
        (add_recurring_task tb t u c).2 = jobIdentity "recurring" u t) ∧
    (addJobReplacing table j2).filter (fun x => x.id == j2.id) = [j2] := by
  refine ⟨fun tb d u t => rfl, fun tb t u c => rfl, ?_⟩
  unfold addJobReplacing
  rw [List.filter_append, List.filter_filter]
  simp

/-- Witness for C8: a colliding registration on a concrete one-job table. -/
theorem scheduler_identity_and_replace_on_collision_witness :
    (∀ (tb : List Job) (d : String) (u t : Int),
        (add_reminder tb d u t).2 = jobIdentity "reminder" u t) ∧
    (∀ (tb : List Job) (t u : Int) (c : String),
        (add_recurring_task tb t u c).2 = jobIdentity "recurring" u t) ∧
    (addJobReplacing
        [{ id := "reminder_7_3", trigger := Trigger.date "2025-01-01",
           user_id := 7, task_id := some 3 }]
        { id := "reminder_7_3", trigger := Trigger.date "2025-06-01",
          user_id := 7, task_id := some 3 }).filter
      (fun x => x.id == "reminder_7_3") =
      [{ id := "reminder_7_3", trigger := Trigger.date "2025-06-01",
         user_id := 7, task_id := some 3 }] :=
  scheduler_identity_and_replace_on_collision
    [{ id := "reminder_7_3", trigger := Trigger.date "2025-01-01",
       user_id := 7, task_id := some 3 }]
    { id := "reminder_7_3", trigger := Trigger.date "2025-06-01",
      user_id := 7, task_id := some 3 }
    ⟨{ id := "reminder_7_3", trigger := Trigger.date "2025-01-01",
       user_id := 7, task_id := some 3 }, by decide, by decide⟩

/--
C9: cancelling a job id not present in the table returns false rather
than raising — the JobLookupError of the underlying store is caught —
and the job table (hence every other scheduled job) is unchanged.
-/
theorem remove_job_unknown_id_false
    (table : List Job) (job_id : String)
    (h : ∀ j ∈ table, j.id ≠ job_id) :
    remove_job table job_id = (false, table) := by
  have hany : table.any (fun j => j.id == job_id) = false := by
    simp only [List.any_eq_false, beq_iff_eq]
    exact h
  simp [remove_job, schedulerRemoveJob, hany]

/-- Witness for C9: cancelling an unknown id on a concrete one-job table. -/
theorem remove_job_unknown_id_false_witness :
    remove_job
      [{ id := "reminder_7_3", trigger := Trigger.date "2025-01-01",
         user_id := 7, task_id := some 3 }] "summary_9" =
      (false,
       [{ id := "reminder_7_3", trigger := Trigger.date "2025-01-01",
          user_id := 7, task_id := some 3 }]) :=
  remove_job_unknown_id_false
    [{ id := "reminder_7_3", trigger := Trigger.date "2025-01-01",
       user_id := 7, task_id := some 3 }] "summary_9" (by decide)

/-! ### add_daily_summary and the Python int() parse it relies on -/

/-- ASCII whitespace stripped by Python str.strip(). -/
def isPySpace (c : Char) : Bool :=
  c = ' ' || c = '\t' || c = '\n' || c = '\r' || c = '\x0b' || c = '\x0c'

/-- Python str.strip(): drop leading and trailing whitespace. -/
def pythonStrip (s : String) : String :=
  String.mk (((s.toList.dropWhile isPySpace).reverse.dropWhile isPySpace).reverse)

/--
Python str.split with a one-character separator, over the character
list: fields are the maximal runs between separator occurrences, and
the empty string yields a single empty field.
-/
def splitOnChar (sep : Char) (acc : List Char) : List Char → List String
  | [] => [String.mk acc.reverse]
  | c :: cs =>
    if c = sep then String.mk acc.reverse :: splitOnChar sep [] cs
    else splitOnChar sep (c :: acc) cs

/-- Python time.split(sep) for a one-character separator. -/
def pySplit (s : String) (sep : Char) : List String :=
  splitOnChar sep [] s.toList

/--
Acceptor for the characters after the first digit of a Python integer
literal body: decimal digits with single underscores allowed between
digits only.
-/
def pyDigitsTail : List Char → Bool
  | [] => true
  | c :: cs =>
    if c = '_' then
      match cs with
      | [] => false
      | d :: ds => d.isDigit && pyDigitsTail ds
    else
      c.isDigit && pyDigitsTail cs

/-- Nonempty digit body: first character a digit, rest per pyDigitsTail. -/
def pyDigitsBody : List Char → Bool
  | [] => false
  | c :: cs => c.isDigit && pyDigitsTail cs

/-- Numeric value of a digit body, underscores skipped. -/
def pyDigitsVal : Nat → List Char → Nat
  | acc, [] => acc
  | acc, c :: cs =>
    if c = '_' then pyDigitsVal acc cs
    else pyDigitsVal (10 * acc + (c.toNat - 48)) cs

/--
Python int(str) on ASCII input: strip surrounding whitespace, accept an
optional sign followed by a nonempty run of decimal digits (single
underscores permitted between digits), and fail — int raises
ValueError, modelled as none — on everything else.
-/
def pythonInt (s : String) : Option Int :=
  match (pythonStrip s).toList with
  | '+' :: rest =>
      if pyDigitsBody rest then some (Int.ofNat (pyDigitsVal 0 rest)) else none
  | '-' :: rest =>
      if pyDigitsBody rest then some (-(Int.ofNat (pyDigitsVal 0 rest))) else none
  | rest =>
      if pyDigitsBody rest then some (Int.ofNat (pyDigitsVal 0 rest)) else none

/--
BotScheduler.add_daily_summary: id "summary_{user_id}"; then
`hour, minute = map(int, time.split(':'))` — which raises ValueError
(modelled as Except.error) when the split does not yield exactly two
fields or a field is not a Python integer — and only then registers the
cron job at that hour and minute with replace_existing.
-/
def add_daily_summary (table : List Job) (user_id : Int) (time : String) :
    Except String (List Job × String) :=
  let job_id := "summary_" ++ toString user_id
  match (pySplit time ':').map pythonInt with
  | [some hour, some minute] =>
      Except.ok (addJobReplacing table
        { id := job_id, trigger := Trigger.cronHM hour minute,
          user_id := user_id, task_id := none }, job_id)
  | _ => Except.error "ValueError"

/--
The claim's well-formedness condition on the time-of-day argument:
splitting on ':' yields exactly two fields and each parses as a Python
integer.
-/
def twoDecimalFields (time : String) : Bool :=
  match pySplit time ':' with
  | [a, b] => (pythonInt a).isSome && (pythonInt b).isSome
  | _ => false

/--
C10: add_daily_summary is partial on its time-of-day argument — on
every time string that is not exactly two ':'-separated integer fields
it raises (an exception value, not a normal return) before registering
any job, and it completes normally only when the string is well formed.
-/
theorem add_daily_summary_partial_on_time
    (table : List Job) (u : Int) (time : String) :
    (twoDecimalFields time = false →
      add_daily_summary table u time = Except.error "ValueError") ∧
    (∀ t2 jid, add_daily_summary table u time = Except.ok (t2, jid) →
      twoDecimalFields time = true) := by
  unfold add_daily_summary twoDecimalFields
  rcases hl : pySplit time ':' with _ | ⟨a, _ | ⟨b, _ | ⟨c, l3⟩⟩⟩
  · simp
  · rcases ha : pythonInt a <;> simp [ha]
  · rcases ha : pythonInt a <;> rcases hb : pythonInt b <;> simp [ha, hb]
  · rcases ha : pythonInt a <;> rcases hb : pythonInt b <;>
      rcases hc : pythonInt c <;> simp [ha, hb, hc]

/--
Witness for C10 at concrete inputs: "nine:00" (a non-integer field) and
"9" (one field) raise, "09:00:00" (three fields) raises, and "09:30"
completes normally.
-/
theorem add_daily_summary_partial_on_time_witness :
    add_daily_summary [] 7 "nine:00" = Except.error "ValueError" ∧
    add_daily_summary [] 7 "9" = Except.error "ValueError" ∧
    add_daily_summary [] 7 "09:00:00" = Except.error "ValueError" ∧
    twoDecimalFields "09:30" = true :=
  ⟨(add_daily_summary_partial_on_time [] 7 "nine:00").1 (by decide),
   (add_daily_summary_partial_on_time [] 7 "9").1 (by decide),
   (add_daily_summary_partial_on_time [] 7 "09:00:00").1 (by decide),
   (add_daily_summary_partial_on_time [] 7 "09:30").2
     [{ id := "summary_7", trigger := Trigger.cronHM 9 30,
        user_id := 7, task_id := none }] "summary_7" rfl⟩

/-! ## Calendar synchronization — bot/handlers/google.py, apps/tasks/services.py -/

/--
A local task as the sync loop sees it: id, owner (task.user.telegram_id),
the event payload fields (title, description, due date), and the
CalendarLinkage — the optional external calendar event id.
-/
structure Task where
  id : Int
  user_telegram_id : Int
  title : String
  description : Option String
  due_date : Int
  google_calendar_event_id : Option String
deriving Repr, DecidableEq

/--
One provider call issued by the sync loop, recorded by the external
identifier it targets (update) or the task it is for (create).  The
event payload — summary from the title, start at the due date, end one
hour later, description — is the same for both calls and is not
inspected by any claim, so it is not recorded.
-/
inductive CalCall
  | create (task_id : Int)
  | update (event_id : String)
deriving Repr, DecidableEq

/-- Is the call a create call? -/
def isCreateCall : CalCall → Bool
  | CalCall.create _ => true
  | CalCall.update _ => false

/--
The calendar provider's behaviour as observed through GoogleAPIClient:
createResult is what create_calendar_event returns for a task — none
when the call fails (no credential or provider error), some r when the
response dict is truthy, with r the value of result.get("id") (the
response may in principle lack the key); updateResult is the truthiness
of what update_calendar_event returns for the given event id.
-/
structure CalendarProvider where
  createResult : Task → Option (Option String)
  updateResult : String → Task → Bool

/--
TaskService.set_google_calendar_id over a task store: fetch the task by
id; if it is absent or its owner's telegram id differs from user_id,
return None and change nothing; otherwise write the calendar event id
onto the task, save, and return the updated task.
-/
def set_google_calendar_id (store : List Task) (task_id user_id : Int)
    (calendar_event_id : Option String) : Option Task × List Task :=
  match store.find? (fun x => x.id == task_id) with
  | none => (none, store)
  | some task =>
    if task.user_telegram_id ≠ user_id then (none, store)
    else
      let updated := { task with google_calendar_event_id := calendar_event_id }
      (some updated, store.map (fun x => if x.id == task_id then updated else x))

/-- What processing one task of the batch produces. -/
structure SyncStep where
  calls : List CalCall
  store : List Task
  ok : Bool
deriving Repr

/--
The per-task body of the loop in google_cal_sync_confirm_callback: if
the task's stored event id is truthy, issue one update call against it;
otherwise issue one create call, and when its result is truthy persist
result.get("id") onto the task via set_google_calendar_id.  The task
counts as succeeded exactly when the issued call's result was truthy.
-/
def syncOne (p : CalendarProvider) (user_id : Int) (t : Task)
    (store : List Task) : SyncStep :=
  if strTruthy t.google_calendar_event_id then
    let eid := t.google_calendar_event_id.getD ""
    { calls := [CalCall.update eid], store := store, ok := p.updateResult eid t }
  else
    match p.createResult t with
    | some returnedId =>
        { calls := [CalCall.create t.id],
          store := (set_google_calendar_id store t.id user_id returnedId).2,
          ok := true }
    | none =>
        { calls := [CalCall.create t.id], store := store, ok := false }

/-- The aggregate outcome of one reconciliation batch. -/
structure SyncOutcome where
  calls : List CalCall
  store : List Task
  success_count : Nat
  error_count : Nat
deriving Repr

/--
The whole batch loop of google_cal_sync_confirm_callback: process the
tasks sequentially in the supplied order, threading the task store, and
tally success_count / error_count.
-/
def syncBatch (p : CalendarProvider) (user_id : Int) (tasks : List Task)
    (store : List Task) : SyncOutcome :=
  match tasks with
  | [] => { calls := [], store := store, success_count := 0, error_count := 0 }
  | t :: rest =>
    let step := syncOne p user_id t store
    let restOutcome := syncBatch p user_id rest step.store
    { calls := step.calls ++ restOutcome.calls,
      store := restOutcome.store,
      success_count := (if step.ok then 1 else 0) + restOutcome.success_count,
      error_count := (if step.ok then 0 else 1) + restOutcome.error_count }

/--
Updating the found task in place keeps it the one found under its id:
helper for the write-back part of C1.
-/
theorem find_update_store (store : List Task) (t upd : Task)
    (hupd : upd.id = t.id)
    (hf : store.find? (fun x => x.id == t.id) = some t) :
    (store.map (fun x => if x.id == t.id then upd else x)).find?
      (fun x => x.id == t.id) = some upd := by
  induction store with
  | nil => simp at hf
  | cons a l ih =>
    by_cases h : a.id = t.id
    · rw [List.find?_cons_of_pos _ (by simp [h])] at hf
      simp only [List.map_cons, if_pos (by simp [h] : (a.id == t.id) = true)]
      rw [List.find?_cons_of_pos _ (by simp [hupd])]
    · rw [List.find?_cons_of_neg _ (by simp [h])] at hf
      simp only [List.map_cons, if_neg (by simp [h] : ¬(a.id == t.id) = true)]
      rw [List.find?_cons_of_neg _ (by simp [h])]
      exact ih hf

/--
C1: for a task of the batch, when it already carries a (truthy)
external event identifier the loop issues exactly one update call
against that identifier and no create call; when it carries none, the
loop issues exactly one create call, and when that call succeeds with a
returned identifier, the identifier is persisted onto the task in the
store (the task being present in the store under its id and owned by
the syncing user).
-/
theorem syncOne_update_or_create_writeback
    (p : CalendarProvider) (u : Int) (t : Task) (store : List Task)
    (hfind : store.find? (fun x => x.id == t.id) = some t)
    (howner : t.user_telegram_id = u) :
    (∀ eid, t.google_calendar_event_id = some eid → eid ≠ "" →
      (syncOne p u t store).calls = [CalCall.update eid]) ∧
    (strTruthy t.google_calendar_event_id = false →
      (syncOne p u t store).calls = [CalCall.create t.id] ∧
      ∀ retId, p.createResult t = some (some retId) →
        ((syncOne p u t store).store.find? (fun x => x.id == t.id)) =
          some { t with google_calendar_event_id := some retId }) := by
  constructor
  · intro eid heq hne
    have hie : eid.isEmpty = false := by
      cases hb : eid.isEmpty
      · rfl
      · exact absurd ((String.isEmpty_iff eid).mp hb) hne
    simp [syncOne, heq, strTruthy, hie]
  · intro hfalse
    constructor
    · unfold syncOne
      rw [if_neg (by simp [hfalse])]
      cases p.createResult t <;> rfl
    · intro retId hcr
      unfold syncOne
      rw [if_neg (by simp [hfalse])]
      rw [hcr]
      simp only [set_google_calendar_id, hfind]
      rw [if_neg (by simp [howner])]
      exact find_update_store store t _ rfl hfind

/--
Re-fetching the batch for a second run: google_cal_sync_callback loads
the user's tasks from the data store again, so each task of the first
batch is looked up by id in the store the first run left behind.
-/
def refetchBatch (tasks store2 : List Task) : List Task :=
  tasks.filterMap (fun t => store2.find? (fun x => x.id == t.id))

/--
A batch in which every task carries a truthy external event identifier
is processed by pure updates: every issued call is an update call.
-/
theorem syncBatch_all_linked_only_updates
    (p : CalendarProvider) (u : Int) (batch : List Task) :
    ∀ store : List Task,
    (∀ t ∈ batch, strTruthy t.google_calendar_event_id = true) →
    ∀ c ∈ (syncBatch p u batch store).calls, ∃ eid, c = CalCall.update eid := by
  induction batch with
  | nil =>
    intro store h c hc
    simp [syncBatch] at hc
  | cons t rest ih =>
    intro store h c hc
    have ht := h t (by simp)
    simp only [syncBatch, syncOne, ht, if_pos, List.cons_append, List.nil_append,
      List.mem_cons] at hc
    rcases hc with rfl | hc
    · exact ⟨_, rfl⟩
    · exact ih _ (fun x hx => h x (List.mem_cons_of_mem _ hx)) c hc

/--
C2: when the first reconciliation run of a batch fully succeeded —
every task of the re-fetched batch ends up carrying an external event
identifier — running the re-fetched batch a second time against the
store the first run left behind issues zero create calls: every call
of the second run is an update call.
-/
theorem syncBatch_second_run_zero_creates
    (p1 p2 : CalendarProvider) (u : Int) (tasks store : List Task)
    (hfull : ∀ t2 ∈ refetchBatch tasks (syncBatch p1 u tasks store).store,
      strTruthy t2.google_calendar_event_id = true) :
    (syncBatch p2 u (refetchBatch tasks (syncBatch p1 u tasks store).store)
        (syncBatch p1 u tasks store).store).calls.countP isCreateCall = 0 ∧
    ∀ c ∈ (syncBatch p2 u (refetchBatch tasks (syncBatch p1 u tasks store).store)
        (syncBatch p1 u tasks store).store).calls,
      ∃ eid, c = CalCall.update eid := by
  have hupd := syncBatch_all_linked_only_updates p2 u
    (refetchBatch tasks (syncBatch p1 u tasks store).store)
    (syncBatch p1 u tasks store).store hfull
  refine ⟨?_, hupd⟩
  rw [List.countP_eq_zero]
  intro c hc
  obtain ⟨eid, rfl⟩ := hupd c hc
  simp [isCreateCall]

/-- The concrete provider used by the reconciler witnesses: every
create succeeds and returns the event id "E1", every update succeeds. -/
def witnessProvider : CalendarProvider :=
  { createResult := fun _ => some (some "E1"),
    updateResult := fun _ _ => true }

/-- The linked concrete task used by the reconciler witnesses. -/
def taskLinked : Task :=
  { id := 1, user_telegram_id := 7, title := "A", description := none,
    due_date := 100, google_calendar_event_id := some "evA" }

/-- The unlinked concrete task used by the reconciler witnesses. -/
def taskUnlinked : Task :=
  { id := 2, user_telegram_id := 7, title := "B", description := none,
    due_date := 200, google_calendar_event_id := none }

/--
Witness for C1: the linked task receives the single update call against
its identifier, and the unlinked task receives the single create call
whose returned identifier "E1" is written back onto it in the store.
-/
theorem syncOne_update_or_create_writeback_witness :
    (syncOne witnessProvider 7 taskLinked [taskLinked]).calls =
      [CalCall.update "evA"] ∧
    (syncOne witnessProvider 7 taskUnlinked [taskUnlinked]).calls =
      [CalCall.create 2] ∧
    (syncOne witnessProvider 7 taskUnlinked [taskUnlinked]).store.find?
      (fun x => x.id == taskUnlinked.id) =
      some { taskUnlinked with google_calendar_event_id := some "E1" } := by
  refine ⟨?_, ?_, ?_⟩
  · exact (syncOne_update_or_create_writeback witnessProvider 7 taskLinked
      [taskLinked] (by decide) rfl).1 "evA" rfl (by decide)
  · exact ((syncOne_update_or_create_writeback witnessProvider 7 taskUnlinked
      [taskUnlinked] (by decide) rfl).2 (by decide)).1
  · exact ((syncOne_update_or_create_writeback witnessProvider 7 taskUnlinked
      [taskUnlinked] (by decide) rfl).2 (by decide)).2 "E1" rfl

/-- A third concrete task, unlinked, for the three-task batch. -/
def taskThird : Task :=
  { id := 3, user_telegram_id := 7, title := "C", description := none,
    due_date := 300, google_calendar_event_id := none }

/-- The three-task batch of the spec's idempotence scenario: A linked,
B and C unlinked. -/
def batch3 : List Task := [taskLinked, taskUnlinked, taskThird]

/--
Witness for C2: after a fully successful first run over the three-task
batch, the re-fetched second run issues zero create calls and only
update calls.
-/
theorem syncBatch_second_run_zero_creates_witness :
    (syncBatch witnessProvider 7
        (refetchBatch batch3 (syncBatch witnessProvider 7 batch3 batch3).store)
        (syncBatch witnessProvider 7 batch3 batch3).store).calls.countP
      isCreateCall = 0 ∧
    ∀ c ∈ (syncBatch witnessProvider 7
        (refetchBatch batch3 (syncBatch witnessProvider 7 batch3 batch3).store)
        (syncBatch witnessProvider 7 batch3 batch3).store).calls,
      ∃ eid, c = CalCall.update eid :=
  syncBatch_second_run_zero_creates witnessProvider witnessProvider 7 batch3 batch3
    (by decide)

end Tarikhbot
